import Mathlib

/-!
Verification development for the homework status bot (`homework.py`).

The program polls a homework-review API, formats status changes and relays
them through a Telegram bot.  We embed its components shallowly:

* Python values appearing in API responses are modelled by `PyVal`.
* Python exceptions are modelled by the error kind `PyErr`.  The classes
  `MissTokenError`, `VerdictErrors` and `ResponseError` come from the
  project's `exceptions` module, which is not part of the sources at hand;
  they are modelled from the spec as three distinct plain exception kinds
  (not subclasses of `JSONDecodeError`, of the `requests` exception
  hierarchy, or of `telegram.error.TelegramError`).
* Side effects (log records, outgoing network calls, the fixed sleep) are
  recorded as an ordered `List Event`.
* Nondeterminism of the outside world (HTTP outcome, Telegram delivery
  outcome) is an explicit input of each function or loop cycle.

A central point of fidelity: in Python, `raise e(msg)` where `e` is a caught
*exception instance* does not re-raise `e`; evaluating `e(msg)` calls the
instance, which raises `TypeError: '...' object is not callable`.  Likewise
`JSONDecodeError(msg)` with a single argument raises a `TypeError` because
the constructor requires `msg`, `doc` and `pos`.  `homework.py` uses both
patterns (`send_message` line 55, `get_api_answer` lines 85-94), so those
paths actually raise `TypeError`, and `main`'s `except TelegramError: pass`
handler is unreachable.  The embedding reproduces this.
-/

/-- Python values occurring in parsed JSON bodies and homework records. -/
inductive PyVal where
  | none
  | int (n : Int)
  | str (s : String)
  | list (xs : List PyVal)
  | dict (entries : List (String × PyVal))

/-- Python exception kinds reachable in this program.  `missTokenError`,
`verdictErrors` and `responseError` are modelled from the spec: the
`exceptions` module defining them is absent from the sources; per the spec
they are distinct error classes outside the `json`/`requests`/`telegram`
hierarchies.  Each carries its message string. -/
inductive PyErr where
  | missTokenError (msg : String)
  | responseError (msg : String)
  | verdictErrors (msg : String)
  | typeError (msg : String)
  | keyError (msg : String)
  | attributeError (msg : String)
  | telegramError (msg : String)
deriving DecidableEq, Repr

/-- Observable effects of the program, in order of occurrence:
log records, the HTTP GET with its `from_date` parameter, each call of
`bot.send_message`, and the fixed sleep ending a cycle. -/
inductive Event where
  | fetch (fromDate : Int)
  | sendAttempt (message : String)
  | logDebug (msg : String)
  | logError (msg : String)
  | logCritical (msg : String)
  | sleep (seconds : Nat)
deriving DecidableEq, Repr

/-- `RETRY_PERIOD = 600`. -/
def RETRY_PERIOD : Nat := 600

/-- The fixed API endpoint URL. -/
def ENDPOINT : String := "https://practicum.yandex.ru/api/user_api/homework_statuses/"

/-- `TOKENS_NAMES` (line 16). -/
def TOKENS_NAMES : List String :=
  ["PRACTICUM_TOKEN", "TELEGRAM_TOKEN", "TELEGRAM_CHAT_ID"]

/-- `HOMEWORK_VERDICTS` (lines 24-28), as an association list with the
source's insertion order. -/
def HOMEWORK_VERDICTS : List (String × String) :=
  [("approved", "Работа проверена: ревьюеру всё понравилось. Ура!"),
   ("reviewing", "Работа взята на проверку ревьюером."),
   ("rejected", "Работа проверена: у ревьюера есть замечания.")]

mutual

/-- Python `repr` of a `PyVal` (used by `str` on containers).  Quotes are
written with the escape `\x27`. -/
def pyRepr : PyVal → String
  | .none => "None"
  | .int n => toString n
  | .str s => "\x27" ++ s ++ "\x27"
  | .list xs => "[" ++ pyReprList xs ++ "]"
  | .dict es => "\x7b" ++ pyReprDict es ++ "\x7d"

/-- Comma-separated `repr`s of list elements. -/
def pyReprList : List PyVal → String
  | [] => ""
  | [x] => pyRepr x
  | x :: y :: xs => pyRepr x ++ ", " ++ pyReprList (y :: xs)

/-- Comma-separated `repr`s of dict entries. -/
def pyReprDict : List (String × PyVal) → String
  | [] => ""
  | [(k, v)] => "\x27" ++ k ++ "\x27: " ++ pyRepr v
  | (k, v) :: e :: es => "\x27" ++ k ++ "\x27: " ++ pyRepr v ++ ", " ++ pyReprDict (e :: es)

end

/-- Python `str()` of a `PyVal`, as used by f-string interpolation: a string
interpolates to itself, other values to their `repr`. -/
def pyStr : PyVal → String
  | .str s => s
  | v => pyRepr v

/-- Python `str()` of a list of strings (`f-string` of a list such as
`none_tikens` in `check_tokens`): the list's `repr`. -/
def pyStrList (xs : List String) : String :=
  "[" ++ pyReprList (xs.map PyVal.str) ++ "]"

/-- Python `str()` of a caught exception, as interpolated by f-strings in
`main`'s generic handler.  CPython renders `KeyError` with the `repr` of its
argument (quotes); other exceptions render as their message. -/
def exnStr : PyErr → String
  | .keyError m => "\x27" ++ m ++ "\x27"
  | .missTokenError m => m
  | .responseError m => m
  | .verdictErrors m => m
  | .typeError m => m
  | .attributeError m => m
  | .telegramError m => m

/-- Message of the `TypeError` raised by CPython when an exception instance
is called, as in `raise error(f"...")` with `error` a caught instance
(modelled message; the claims do not depend on its exact text). -/
def notCallableMsg : String := "exception object is not callable"

/-- Message of the `TypeError` raised by `JSONDecodeError(msg)`: the
constructor requires the three arguments `msg`, `doc` and `pos` (modelled
message; the claims do not depend on its exact text). -/
def jsonDecodeInitErrMsg : String :=
  "JSONDecodeError.__init__ missing 2 required positional arguments: doc and pos"

/-- Message of the `AttributeError` raised by `response.keys()` when the
parsed body is not a dict (modelled message). -/
def keysAttrErrMsg : String := "object has no attribute keys"

/-- Message of the `TypeError` raised by `homework["status"]` when the
record is not subscriptable by a string (modelled message). -/
def subscriptErrMsg : String := "object is not subscriptable by str"

/-- Python truthiness of an optional environment string: `None` and the
empty string are falsy. -/
def truthy : Option String → Bool
  | Option.none => false
  | Option.some s => !(s == "")

/-- The process environment: the three variables read at lines 17-19. -/
structure Env where
  practicum : Option String
  telegram : Option String
  chatId : Option String

/-- The list `tokens = [PRACTICUM_TOKEN, TELEGRAM_TOKEN, TELEGRAM_CHAT_ID]`
(line 36). -/
def tokensList (env : Env) : List (Option String) :=
  [env.practicum, env.telegram, env.chatId]

/-- `none_tikens = [TOKENS_NAMES[i] for i, x in enumerate(tokens) if not x]`
(line 38). -/
def missingNames (env : Env) : List String :=
  ((TOKENS_NAMES.zip (tokensList env)).filterMap
    (fun p => if truthy p.2 then Option.none else Option.some p.1))

/-- The message logged and raised by `check_tokens` (lines 39-40). -/
def missTokensMsg (env : Env) : String :=
  "Отсутствуют токены: " ++ pyStrList (missingNames env)

/-- `check_tokens` (lines 31-40): if not all three tokens are truthy, log a
critical record naming the missing ones and raise `MissTokenError`. -/
def check_tokens (env : Env) : List Event × Except PyErr Unit :=
  if (tokensList env).all truthy then
    ([], .ok ())
  else
    ([.logCritical (missTokensMsg env)],
     .error (.missTokenError (missTokensMsg env)))

/-- The Credential Loader component: module initialisation binds the three
environment values (lines 17-19) and `check_tokens` validates them; after a
successful check the three bound values are the loader's result. -/
def loadCredentials (env : Env) :
    List Event × Except PyErr (String × String × String) :=
  match check_tokens env with
  | (evs, .error e) => (evs, .error e)
  | (evs, .ok ()) =>
    (evs, .ok (env.practicum.getD "", env.telegram.getD "", env.chatId.getD ""))

/-- `send_message` (lines 43-55).  `outcome` is the behaviour of the
Telegram backend for this call: `none` means `bot.send_message` succeeds,
`some err` means it raises `TelegramError(err)`.  On success the function
logs at debug level; on failure it logs at error level and then executes
`raise error(f"...")`, which calls the caught `TelegramError` instance and
therefore raises a `TypeError`, not the `TelegramError`. -/
def send_message (outcome : Option String) (message : String) :
    List Event × Except PyErr Unit :=
  match outcome with
  | Option.none =>
    ([.sendAttempt message, .logDebug "Сообщение отправлено успешно"], .ok ())
  | Option.some err =>
    ([.sendAttempt message,
      .logError ("Ошибка при отправки сообщения: " ++ err)],
     .error (.typeError notCallableMsg))

/-- Behaviour of the network for one `requests.get` call:
either a response arrives (with its HTTP status code, and `Option.none` as
body when `response.json()` raises `JSONDecodeError`), or `requests.get`
itself raises one of the `requests` exception kinds. -/
inductive HttpOutcome where
  | resp (status : Nat) (body : Option PyVal)
  | timeout (msg : String)
  | connectionError (msg : String)
  | httpError (msg : String)
  | requestException (msg : String)

/-- `get_api_answer` (lines 58-94).  Emits the single HTTP GET with the
given `from_date` timestamp and returns the result:

* non-200 status: `ResponseError` (not caught by the later `except`
  clauses, whose classes are unrelated);
* body unparseable: the `except JSONDecodeError` clause runs
  `raise JSONDecodeError(f"...")`, whose one-argument construction raises
  `TypeError`;
* parsed body with an `error` or `code` key: `ResponseError`;
* parsed body that is not a dict: `response.keys()` raises
  `AttributeError`, caught by no clause;
* `requests`-level failures (timeout, connection, HTTP, generic): each
  `except` clause runs `raise error(f"...")`, calling the caught instance,
  which raises `TypeError`;
* otherwise the parsed body is returned unchanged. -/
def get_api_answer (timestamp : Int) (http : HttpOutcome) :
    List Event × Except PyErr PyVal :=
  ([.fetch timestamp],
   match http with
   | .timeout _ => .error (.typeError notCallableMsg)
   | .connectionError _ => .error (.typeError notCallableMsg)
   | .httpError _ => .error (.typeError notCallableMsg)
   | .requestException _ => .error (.typeError notCallableMsg)
   | .resp status body =>
     if status ≠ 200 then
       .error (.responseError
         ("Неверный ответ " ++ ENDPOINT ++ ": " ++ toString status))
     else
       match body with
       | Option.none => .error (.typeError jsonDecodeInitErrMsg)
       | Option.some response =>
         match response with
         | .dict entries =>
           match entries.lookup "error" with
           | Option.some v =>
             .error (.responseError
               ("Неверный ответ " ++ ENDPOINT ++ ": " ++ pyStr v))
           | Option.none =>
             match entries.lookup "code" with
             | Option.some v =>
               .error (.responseError
                 ("Неверный ответ " ++ ENDPOINT ++ ": " ++ pyStr v))
             | Option.none => .ok response
         | _ => .error (.attributeError keysAttrErrMsg))

/-- `check_response` (lines 97-111): the response must be a dict with a
`homeworks` key whose value is a list; that list is returned unchanged. -/
def check_response (response : PyVal) : Except PyErr (List PyVal) :=
  match response with
  | .dict entries =>
    match entries.lookup "homeworks" with
    | Option.none =>
      .error (.keyError "Отсутствие ожидаемых ключей в ответе API")
    | Option.some v =>
      match v with
      | .list xs => .ok xs
      | _ => .error (.typeError "Значение под ключем homeworks не list")
  | _ => .error (.typeError "Полученные ответ от API не является словарем")

/-- The sentence returned by `parse_status` (line 129). -/
def statusChangedMsg (name verdict : String) : String :=
  "Изменился статус проверки работы \"" ++ name ++ "\". " ++ verdict

/-- The message of the `VerdictErrors` raised by `parse_status`
(lines 130-131; the source concatenates the two literals without a space
after the comma). -/
def unexpectedStatusMsg (status : String) : String :=
  "Неожиданный статус домашней работы," ++
    "обнаруженный в ответе API " ++ status

/-- `parse_status` (lines 114-131): reads `status` and `homework_name` from
the record (a missing key raises `KeyError`; a non-dict record raises
`TypeError` from the subscription itself, which the `except KeyError` does
not catch), looks the status up in `HOMEWORK_VERDICTS` and formats the
sentence; an unknown status raises `VerdictErrors` naming it. -/
def parse_status (homework : PyVal) : Except PyErr String :=
  match homework with
  | .dict entries =>
    match entries.lookup "status", entries.lookup "homework_name" with
    | Option.some status, Option.some name =>
      (match status with
       | .str s =>
         match HOMEWORK_VERDICTS.lookup s with
         | Option.some verdict => .ok (statusChangedMsg (pyStr name) verdict)
         | Option.none => .error (.verdictErrors (unexpectedStatusMsg (pyStr status)))
       | _ => .error (.verdictErrors (unexpectedStatusMsg (pyStr status))))
    | _, _ =>
      .error (.keyError "Отсутствие необходимых ключей status и homework_name")
  | _ => .error (.typeError subscriptErrMsg)

/-- The orchestrator's state: `current_status` (line 138) and the cursor
`timestamp` (lines 144-145), local variables of `main`. -/
structure LoopState where
  currentStatus : String
  timestamp : Int
deriving DecidableEq, Repr

/-- Environment behaviour for one poll cycle: the network's answer to the
single `requests.get`, and the Telegram backend's behaviour for the first
and (if reached) second `bot.send_message` call of the cycle (`none` =
delivery succeeds, `some err` = `TelegramError(err)`). -/
structure CycleInput where
  http : HttpOutcome
  send1 : Option String
  send2 : Option String

/-- The `try:` block of one cycle (lines 148-157): fetch, validate, and if
a homework is present and its verdict differs from `current_status`, first
assign `current_status = verdict` (line 154) and then send (line 155).
Returns the state after the block, the events, and the exception if one was
raised. -/
def tryBody (s : LoopState) (inp : CycleInput) :
    LoopState × List Event × Except PyErr Unit :=
  let fev := (get_api_answer s.timestamp inp.http).1
  match (get_api_answer s.timestamp inp.http).2 with
  | .error e => (s, fev, .error e)
  | .ok response =>
    match check_response response with
    | .error e => (s, fev, .error e)
    | .ok [] => (s, fev, .ok ())
    | .ok (hw :: _) =>
      match parse_status hw with
      | .error e => (s, fev, .error e)
      | .ok verdict =>
        if s.currentStatus ≠ verdict then
          ({ s with currentStatus := verdict },
           fev ++ (send_message inp.send1 verdict).1,
           (send_message inp.send1 verdict).2)
        else
          (s, fev ++ [.logDebug "В ответе отсутствует новый статус"], .ok ())

/-- The `except` clauses of `main` (lines 158-164).  A `TelegramError` is
passed silently; any other exception is logged at error level and a
failure-notice send is attempted.  If that secondary `send_message` itself
raises, no clause catches it: the exception escapes `main` and the process
terminates (the final `Bool` is `true` exactly in that case, and the cycle
reaches no `sleep`). -/
def handleCycleExc (s : LoopState) (evs : List Event) (e : PyErr)
    (inp : CycleInput) : LoopState × List Event × Bool :=
  match e with
  | .telegramError _ => (s, evs ++ [.sleep RETRY_PERIOD], false)
  | _ =>
    match (send_message inp.send2 ("Сбой в работе программы: " ++ exnStr e)).2 with
    | .ok () =>
      (s, evs ++ [.logError ("Сбой в работе программы: " ++ exnStr e)]
            ++ (send_message inp.send2 ("Сбой в работе программы: " ++ exnStr e)).1
            ++ [.sleep RETRY_PERIOD], false)
    | .error _ =>
      (s, evs ++ [.logError ("Сбой в работе программы: " ++ exnStr e)]
            ++ (send_message inp.send2 ("Сбой в работе программы: " ++ exnStr e)).1,
       true)

/-- One iteration of the `while True:` loop (lines 147-166): run the `try:`
block, dispatch any exception to the `except` clauses, then sleep the fixed
period.  The `Bool` is `true` when an exception escaped the iteration
(crashing the process). -/
def runCycle (s : LoopState) (inp : CycleInput) :
    LoopState × List Event × Bool :=
  match (tryBody s inp).2.2 with
  | .ok () => ((tryBody s inp).1, (tryBody s inp).2.1 ++ [.sleep RETRY_PERIOD], false)
  | .error e => handleCycleExc (tryBody s inp).1 (tryBody s inp).2.1 e inp

/-- Run the loop through a finite prefix of cycle inputs, stopping early if
an iteration crashes the process. -/
def runLoop (s : LoopState) : List CycleInput → LoopState × List Event × Bool
  | [] => (s, [], false)
  | inp :: rest =>
    let r := runCycle s inp
    if r.2.2 then (r.1, r.2.1, true)
    else
      let r' := runLoop r.1 rest
      (r'.1, r.2.1 ++ r'.2.1, r'.2.2)

/-- The initial cursor (lines 144-145): `date.today() - timedelta(days=30)`
converted to a Unix timestamp.  `today` is the process-start day number and
`mktime` the platform conversion from a day to the Unix timestamp of its
local midnight. -/
def initialTimestamp (mktime : Int → Int) (today : Int) : Int :=
  mktime (today - 30)

/-- The orchestrator's state on entering the loop: `current_status = ""`
(line 138) and the cursor, which is initialised exactly once. -/
def initState (mktime : Int → Int) (today : Int) : LoopState :=
  { currentStatus := "", timestamp := initialTimestamp mktime today }

/-- The `bot.send_message` calls recorded in a list of events, in order. -/
def sendMsgs (evs : List Event) : List String :=
  evs.filterMap (fun e => match e with
    | .sendAttempt m => Option.some m
    | _ => Option.none)

/-- The `from_date` parameters of the HTTP GET calls in a list of events. -/
def fetchTimestamps (evs : List Event) : List Int :=
  evs.filterMap (fun e => match e with
    | .fetch t => Option.some t
    | _ => Option.none)

/-- A well-formed single-record response body for a homework with the given
name and status, as in the spec's orchestrator scenario. -/
def respBody (name status : String) : PyVal :=
  .dict [("homeworks", .list [.dict [("status", .str status),
                                     ("homework_name", .str name)]])]

/-- A cycle input whose fetch returns a 200 response with exactly one
homework record and whose deliveries succeed. -/
def okCycle (name status : String) : CycleInput :=
  { http := .resp 200 (Option.some (respBody name status)),
    send1 := Option.none, send2 := Option.none }

/-- `sub` occurs as a contiguous substring of `s`. -/
def containsSub (s sub : String) : Prop :=
  ∃ pre post : String, s = pre ++ sub ++ post

/-- Whether an API-client result is a raised `ResponseError`. -/
def isResponseError (r : Except PyErr PyVal) : Bool :=
  match r with
  | .error (.responseError _) => true
  | _ => false

/-- Whether a notifier result is a raised `TelegramError` (the program's
delivery-classified error). -/
def raisesTelegramError (r : Except PyErr Unit) : Bool :=
  match r with
  | .error (.telegramError _) => true
  | _ => false

theorem string_append_empty_eq (a : String) : a ++ "" = a :=
  String.append_empty a

theorem containsSub_of_append (pre sub post : String) :
    containsSub (pre ++ sub ++ post) sub :=
  ⟨pre, post, rfl⟩

theorem containsSub_append_right (pre sub : String) :
    containsSub (pre ++ sub) sub :=
  ⟨pre, "", by rw [String.append_assoc, string_append_empty_eq]⟩

/-- The formatted sentence contains the homework name. -/
theorem statusChangedMsg_contains_name (name verdict : String) :
    containsSub (statusChangedMsg name verdict) name :=
  ⟨"Изменился статус проверки работы \"", "\". " ++ verdict, by
    simp only [statusChangedMsg, String.append_assoc]⟩

/-- The formatted sentence contains the exact verdict text. -/
theorem statusChangedMsg_contains_verdict (name verdict : String) :
    containsSub (statusChangedMsg name verdict) verdict :=
  containsSub_append_right _ verdict

/-- The unexpected-status message names the offending status. -/
theorem unexpectedStatusMsg_contains_status (status : String) :
    containsSub (unexpectedStatusMsg status) status :=
  containsSub_append_right _ status

/-- C3 (code bug evidence): on success `send_message` only logs at debug
level and raises nothing; on a backend-reported delivery failure it logs at
error level but then raises a `TypeError` — the `raise error(...)` on line
55 calls the caught `TelegramError` instance — rather than re-raising a
delivery-classified (`TelegramError`) error carrying the original cause. -/
theorem send_message_failure_raises_typeError :
    send_message Option.none "привет" =
      ([.sendAttempt "привет", .logDebug "Сообщение отправлено успешно"],
       .ok ())
  ∧ send_message (Option.some "Bad Request") "привет" =
      ([.sendAttempt "привет",
        .logError "Ошибка при отправки сообщения: Bad Request"],
       .error (.typeError notCallableMsg))
  ∧ raisesTelegramError (send_message (Option.some "Bad Request") "привет").2
      = false :=
  ⟨rfl, rfl, rfl⟩

/-- C5: `parse_status` raises a `KeyError` when `status` or `homework_name`
is absent from the record; when both are present and the status is one of
the table's known statuses it returns the formatted sentence, which
contains the homework name and the exact mapped verdict text; for any
status string outside the table it raises `VerdictErrors` naming the
offending status. -/
theorem parse_status_spec :
    (∀ entries : List (String × PyVal),
       entries.lookup "status" = Option.none ∨
         entries.lookup "homework_name" = Option.none →
       parse_status (.dict entries) =
         .error (.keyError "Отсутствие необходимых ключей status и homework_name"))
  ∧ (∀ (entries : List (String × PyVal)) (name status verdict : String),
       entries.lookup "status" = Option.some (.str status) →
       entries.lookup "homework_name" = Option.some (.str name) →
       HOMEWORK_VERDICTS.lookup status = Option.some verdict →
       parse_status (.dict entries) = .ok (statusChangedMsg name verdict) ∧
       containsSub (statusChangedMsg name verdict) name ∧
       containsSub (statusChangedMsg name verdict) verdict)
  ∧ (∀ (entries : List (String × PyVal)) (name status : String),
       entries.lookup "status" = Option.some (.str status) →
       entries.lookup "homework_name" = Option.some (.str name) →
       HOMEWORK_VERDICTS.lookup status = Option.none →
       parse_status (.dict entries) =
         .error (.verdictErrors (unexpectedStatusMsg status)) ∧
       containsSub (unexpectedStatusMsg status) status) := by
  refine ⟨?_, ?_, ?_⟩
  · intro entries h
    rcases h with h | h
    · simp [parse_status, h]
    · cases hs : entries.lookup "status" <;> simp [parse_status, hs, h]
  · intro entries name status verdict h1 h2 hv
    refine ⟨?_, statusChangedMsg_contains_name name verdict,
            statusChangedMsg_contains_verdict name verdict⟩
    simp [parse_status, h1, h2, hv, pyStr]
  · intro entries name status h1 h2 hv
    refine ⟨?_, unexpectedStatusMsg_contains_status status⟩
    simp [parse_status, h1, h2, hv, pyStr]

/-- Witness for C5: a record with status `approved` formats to the mapped
sentence, and a record missing `homework_name` raises the `KeyError`. -/
theorem parse_status_spec_witness :
    HOMEWORK_VERDICTS.lookup "approved" =
      Option.some "Работа проверена: ревьюеру всё понравилось. Ура!"
  ∧ parse_status (.dict [("status", .str "approved"),
                         ("homework_name", .str "hw1")]) =
      .ok (statusChangedMsg "hw1" "Работа проверена: ревьюеру всё понравилось. Ура!")
  ∧ parse_status (.dict [("status", .str "approved")]) =
      .error (.keyError "Отсутствие необходимых ключей status и homework_name") :=
  ⟨rfl,
   (parse_status_spec.2.1 [("status", .str "approved"),
                           ("homework_name", .str "hw1")]
      "hw1" "approved" "Работа проверена: ревьюеру всё понравилось. Ура!"
      rfl rfl rfl).1,
   parse_status_spec.1 [("status", .str "approved")] (Or.inr rfl)⟩

/-- C6: `check_response` raises a `TypeError` on any non-dict input, a
`KeyError` when the dict lacks the `homeworks` key, a `TypeError` when the
value under `homeworks` is not a list, and returns that list unchanged
otherwise. -/
theorem check_response_spec :
    (∀ v : PyVal, (∀ entries, v ≠ .dict entries) →
       check_response v =
         .error (.typeError "Полученные ответ от API не является словарем"))
  ∧ (∀ entries : List (String × PyVal),
       entries.lookup "homeworks" = Option.none →
       check_response (.dict entries) =
         .error (.keyError "Отсутствие ожидаемых ключей в ответе API"))
  ∧ (∀ (entries : List (String × PyVal)) (v : PyVal),
       entries.lookup "homeworks" = Option.some v →
       (∀ xs, v ≠ .list xs) →
       check_response (.dict entries) =
         .error (.typeError "Значение под ключем homeworks не list"))
  ∧ (∀ (entries : List (String × PyVal)) (xs : List PyVal),
       entries.lookup "homeworks" = Option.some (.list xs) →
       check_response (.dict entries) = .ok xs) := by
  refine ⟨?_, ?_, ?_, ?_⟩
  · intro v h
    cases v with
    | dict entries => exact absurd rfl (h entries)
    | _ => rfl
  · intro entries h
    simp [check_response, h]
  · intro entries v h hv
    cases v with
    | list xs => exact absurd rfl (hv xs)
    | _ => simp [check_response, h]
  · intro entries xs h
    simp [check_response, h]

/-- Witness for C6: a list input raises the `TypeError`; a valid response
returns the homework list unchanged with its order. -/
theorem check_response_spec_witness :
    check_response (.list []) =
      .error (.typeError "Полученные ответ от API не является словарем")
  ∧ check_response (.dict [("homeworks", .list [.int 1, .str "a"])]) =
      .ok [.int 1, .str "a"] :=
  ⟨check_response_spec.1 (.list []) (by simp),
   check_response_spec.2.2.2 [("homeworks", .list [.int 1, .str "a"])]
     [.int 1, .str "a"] rfl⟩

/-- C10: `parse_status` is insensitive to record fields other than
`status` and `homework_name`: two dict records agreeing on those two keys
produce the same outcome regardless of any other fields. -/
theorem parse_status_field_insensitive :
    ∀ e1 e2 : List (String × PyVal),
      e1.lookup "status" = e2.lookup "status" →
      e1.lookup "homework_name" = e2.lookup "homework_name" →
      parse_status (.dict e1) = parse_status (.dict e2) := by
  intro e1 e2 h1 h2
  simp only [parse_status]
  rw [h1, h2]

/-- Witness for C10: adding an unrelated `id` field does not change the
outcome. -/
theorem parse_status_field_insensitive_witness :
    ([("status", .str "rejected"), ("homework_name", .str "hw")]
        : List (String × PyVal)).lookup "status" =
      ([("status", .str "rejected"), ("homework_name", .str "hw"),
        ("id", .int 7)] : List (String × PyVal)).lookup "status"
  ∧ parse_status (.dict [("status", .str "rejected"),
                         ("homework_name", .str "hw")]) =
      parse_status (.dict [("status", .str "rejected"),
                           ("homework_name", .str "hw"), ("id", .int 7)]) :=
  ⟨rfl,
   parse_status_field_insensitive
     [("status", .str "rejected"), ("homework_name", .str "hw")]
     [("status", .str "rejected"), ("homework_name", .str "hw"),
      ("id", .int 7)] rfl rfl⟩

/-- C7: the credential loader fails with `MissTokenError` and logs a
critical record enumerating the missing names whenever any of the three
environment values is unset or empty; when all three are set (non-empty) it
succeeds and returns the three values.  The last conjunct spells out the
enumeration computed for the log message. -/
theorem credential_loader_spec :
    (∀ p t c : String, p ≠ "" → t ≠ "" → c ≠ "" →
       loadCredentials ⟨Option.some p, Option.some t, Option.some c⟩ =
         ([], .ok (p, t, c)))
  ∧ (∀ env : Env, (tokensList env).all truthy = false →
       loadCredentials env =
         ([.logCritical (missTokensMsg env)],
          .error (.missTokenError (missTokensMsg env))))
  ∧ (∀ env : Env, (tokensList env).all truthy = false ↔
       (env.practicum = Option.none ∨ env.practicum = Option.some "" ∨
        env.telegram = Option.none ∨ env.telegram = Option.some "" ∨
        env.chatId = Option.none ∨ env.chatId = Option.some ""))
  ∧ (∀ env : Env, missingNames env =
       (if truthy env.practicum then [] else ["PRACTICUM_TOKEN"]) ++
       (if truthy env.telegram then [] else ["TELEGRAM_TOKEN"]) ++
       (if truthy env.chatId then [] else ["TELEGRAM_CHAT_ID"])) := by
  refine ⟨?_, ?_, ?_, ?_⟩
  · intro p t c hp ht hc
    simp [loadCredentials, check_tokens, tokensList, truthy, hp, ht, hc]
  · intro env h
    simp [loadCredentials, check_tokens, h]
  · intro env
    obtain ⟨a, b, c⟩ := env
    cases a <;> cases b <;> cases c <;>
      (simp [tokensList, truthy, List.all]; try tauto)
  · intro env
    obtain ⟨a, b, c⟩ := env
    cases ha : truthy a <;> cases hb : truthy b <;> cases hc : truthy c <;>
      simp [missingNames, tokensList, TOKENS_NAMES, ha, hb, hc]

/-- Witness for C7: all three set returns the triple; an empty API token
and an unset chat id produce the critical log naming exactly those two. -/
theorem credential_loader_spec_witness :
    ("tok1" : String) ≠ ""
  ∧ loadCredentials ⟨Option.some "tok1", Option.some "tok2", Option.some "id"⟩ =
      ([], .ok ("tok1", "tok2", "id"))
  ∧ (tokensList ⟨Option.some "", Option.some "tok2", Option.none⟩).all truthy
      = false
  ∧ loadCredentials ⟨Option.some "", Option.some "tok2", Option.none⟩ =
      ([.logCritical
          (missTokensMsg ⟨Option.some "", Option.some "tok2", Option.none⟩)],
       .error (.missTokenError
          (missTokensMsg ⟨Option.some "", Option.some "tok2", Option.none⟩)))
  ∧ missingNames ⟨Option.some "", Option.some "tok2", Option.none⟩ =
      ["PRACTICUM_TOKEN", "TELEGRAM_CHAT_ID"] :=
  ⟨by decide,
   credential_loader_spec.1 "tok1" "tok2" "id"
     (by decide) (by decide) (by decide),
   rfl,
   credential_loader_spec.2.1 ⟨Option.some "", Option.some "tok2", Option.none⟩ rfl,
   rfl⟩

/-- C4 counterexample: an unparseable 200 body raises a `TypeError` (from
the one-argument `JSONDecodeError(...)` construction), not a
`ResponseError`-class failure; a timeout raises a `TypeError` (from calling
the caught exception instance), not the transport error kind; and a 200
body that parses to a list — which contains no `error` or `code` key — is
not returned but raises an `AttributeError` from `response.keys()`. -/
theorem get_api_answer_claim_counterexample :
    (get_api_answer 0 (.resp 200 Option.none)).2 =
      .error (.typeError jsonDecodeInitErrMsg)
  ∧ isResponseError (get_api_answer 0 (.resp 200 Option.none)).2 = false
  ∧ (get_api_answer 0 (.timeout "timed out")).2 =
      .error (.typeError notCallableMsg)
  ∧ (get_api_answer 0 (.resp 200 (Option.some (.list [])))).2 =
      .error (.attributeError keysAttrErrMsg) :=
  ⟨rfl, rfl, rfl, rfl⟩

/-- C4 as amended: `get_api_answer` performs exactly one request (no
retry); non-200 status, an `error` key and a `code` key each raise a
`ResponseError` with a descriptive message; an unparseable body raises a
`TypeError` (mis-constructed `JSONDecodeError`); a parsed non-dict body
raises an `AttributeError`; each network-level transport failure raises a
`TypeError` (calling the caught instance) rather than being swallowed; and
the parsed body is returned unchanged iff the status is 200 and the body
parses to a dict with neither an `error` nor a `code` key. -/
theorem get_api_answer_amended :
    (∀ (t : Int) (http : HttpOutcome), (get_api_answer t http).1 = [.fetch t])
  ∧ (∀ (t : Int) (status : Nat) (body : Option PyVal), status ≠ 200 →
       (get_api_answer t (.resp status body)).2 =
         .error (.responseError
           ("Неверный ответ " ++ ENDPOINT ++ ": " ++ toString status)))
  ∧ (∀ t : Int, (get_api_answer t (.resp 200 Option.none)).2 =
       .error (.typeError jsonDecodeInitErrMsg))
  ∧ (∀ (t : Int) (entries : List (String × PyVal)) (v : PyVal),
       entries.lookup "error" = Option.some v →
       (get_api_answer t (.resp 200 (Option.some (.dict entries)))).2 =
         .error (.responseError
           ("Неверный ответ " ++ ENDPOINT ++ ": " ++ pyStr v)))
  ∧ (∀ (t : Int) (entries : List (String × PyVal)) (v : PyVal),
       entries.lookup "error" = Option.none →
       entries.lookup "code" = Option.some v →
       (get_api_answer t (.resp 200 (Option.some (.dict entries)))).2 =
         .error (.responseError
           ("Неверный ответ " ++ ENDPOINT ++ ": " ++ pyStr v)))
  ∧ (∀ (t : Int) (entries : List (String × PyVal)),
       entries.lookup "error" = Option.none →
       entries.lookup "code" = Option.none →
       (get_api_answer t (.resp 200 (Option.some (.dict entries)))).2 =
         .ok (.dict entries))
  ∧ (∀ (t : Int) (body : PyVal), (∀ entries, body ≠ .dict entries) →
       (get_api_answer t (.resp 200 (Option.some body))).2 =
         .error (.attributeError keysAttrErrMsg))
  ∧ (∀ (t : Int) (m : String),
       (get_api_answer t (.timeout m)).2 = .error (.typeError notCallableMsg)
       ∧ (get_api_answer t (.connectionError m)).2 =
           .error (.typeError notCallableMsg)
       ∧ (get_api_answer t (.httpError m)).2 =
           .error (.typeError notCallableMsg)
       ∧ (get_api_answer t (.requestException m)).2 =
           .error (.typeError notCallableMsg))
  ∧ (∀ (t : Int) (http : HttpOutcome) (v : PyVal),
       (get_api_answer t http).2 = .ok v ↔
         (∃ entries, v = .dict entries ∧
            http = .resp 200 (Option.some (.dict entries)) ∧
            entries.lookup "error" = Option.none ∧
            entries.lookup "code" = Option.none)) := by
  refine ⟨?_, ?_, ?_, ?_, ?_, ?_, ?_, ?_, ?_⟩
  · intro t http; rfl
  · intro t status body h
    simp [get_api_answer, h]
  · intro t; rfl
  · intro t entries v h
    simp [get_api_answer, h]
  · intro t entries v he hc
    simp [get_api_answer, he, hc]
  · intro t entries he hc
    simp [get_api_answer, he, hc]
  · intro t body h
    cases body with
    | dict entries => exact absurd rfl (h entries)
    | _ => rfl
  · intro t m
    exact ⟨rfl, rfl, rfl, rfl⟩
  · intro t http v
    cases http with
    | resp status body =>
      by_cases hs : status = 200
      · subst hs
        cases body with
        | none => simp [get_api_answer]
        | some b =>
          cases b with
          | dict entries =>
            cases he : entries.lookup "error" with
            | some w =>
              simp only [get_api_answer, he]
              constructor
              · intro h
                exact nomatch h
              rintro ⟨entries', hv, hhttp, herr, hcode⟩
              injection hhttp with h1 h2
              injection h2 with h3
              injection h3 with h4
              subst h4
              simp [he] at herr
            | none =>
              cases hc : entries.lookup "code" with
              | some w =>
                simp only [get_api_answer, he, hc]
                constructor
                · intro h
                  exact nomatch h
                rintro ⟨entries', hv, hhttp, herr, hcode⟩
                injection hhttp with h1 h2
                injection h2 with h3
                injection h3 with h4
                subst h4
                simp [hc] at hcode
              | none =>
                simp only [get_api_answer, he, hc]
                constructor
                · intro h
                  cases h
                  exact ⟨entries, rfl, rfl, he, hc⟩
                · rintro ⟨entries', hv, hhttp, -, -⟩
                  cases hhttp
                  cases hv
                  simp
          | _ => simp [get_api_answer]
      · simp [get_api_answer, hs]
    | timeout m => simp [get_api_answer]
    | connectionError m => simp [get_api_answer]
    | httpError m => simp [get_api_answer]
    | requestException m => simp [get_api_answer]

/-- Witness for C4's amended theorem: a 404 raises the `ResponseError`, an
`error`-key body raises the `ResponseError` naming it, and a clean body is
returned unchanged. -/
theorem get_api_answer_amended_witness :
    ((404 : Nat) ≠ 200)
  ∧ (get_api_answer 5 (.resp 404 Option.none)).2 =
      .error (.responseError
        ("Неверный ответ " ++ ENDPOINT ++ ": " ++ toString (404 : Nat)))
  ∧ (get_api_answer 5 (.resp 200 (Option.some
        (.dict [("error", .str "bad_request")])))).2 =
      .error (.responseError
        ("Неверный ответ " ++ ENDPOINT ++ ": " ++ pyStr (.str "bad_request")))
  ∧ (get_api_answer 5 (.resp 200 (Option.some
        (.dict [("homeworks", .list [])])))).2 =
      .ok (.dict [("homeworks", .list [])]) :=
  ⟨by decide,
   get_api_answer_amended.2.1 5 404 Option.none (by decide),
   get_api_answer_amended.2.2.2.1 5 [("error", .str "bad_request")]
     (.str "bad_request") rfl,
   get_api_answer_amended.2.2.2.2.2.1 5 [("homeworks", .list [])] rfl rfl⟩
theorem get_api_answer_events (t : Int) (http : HttpOutcome) :
    (get_api_answer t http).1 = [.fetch t] := rfl

theorem send_message_no_fetch (o : Option String) (m : String) :
    fetchTimestamps (send_message o m).1 = [] := by
  cases o <;> rfl

theorem fetchTimestamps_append (a b : List Event) :
    fetchTimestamps (a ++ b) = fetchTimestamps a ++ fetchTimestamps b :=
  List.filterMap_append a b _

theorem fetchTimestamps_fetch (t : Int) :
    fetchTimestamps [Event.fetch t] = [t] := rfl

theorem fetchTimestamps_logDebug (m : String) :
    fetchTimestamps [Event.logDebug m] = [] := rfl

theorem fetchTimestamps_logError (m : String) :
    fetchTimestamps [Event.logError m] = [] := rfl

theorem fetchTimestamps_sleep (n : Nat) :
    fetchTimestamps [Event.sleep n] = [] := rfl

theorem tryBody_timestamp (s : LoopState) (inp : CycleInput) :
    (tryBody s inp).1.timestamp = s.timestamp := by
  dsimp only [tryBody]
  repeat' split
  all_goals rfl

theorem tryBody_fetch (s : LoopState) (inp : CycleInput) :
    fetchTimestamps (tryBody s inp).2.1 = [s.timestamp] := by
  dsimp only [tryBody]
  repeat' split
  all_goals simp only [get_api_answer_events, fetchTimestamps_append,
    send_message_no_fetch, fetchTimestamps_fetch, fetchTimestamps_logDebug,
    List.append_nil]

theorem handleCycleExc_state (s : LoopState) (evs : List Event) (e : PyErr)
    (inp : CycleInput) : (handleCycleExc s evs e inp).1 = s := by
  dsimp only [handleCycleExc]
  repeat' split
  all_goals rfl

theorem handleCycleExc_fetch (s : LoopState) (evs : List Event) (e : PyErr)
    (inp : CycleInput) :
    fetchTimestamps (handleCycleExc s evs e inp).2.1 = fetchTimestamps evs := by
  dsimp only [handleCycleExc]
  repeat' split
  all_goals simp only [fetchTimestamps_append, send_message_no_fetch,
    fetchTimestamps_logError, fetchTimestamps_sleep, List.append_nil]

theorem runCycle_timestamp (s : LoopState) (inp : CycleInput) :
    (runCycle s inp).1.timestamp = s.timestamp := by
  dsimp only [runCycle]
  split
  · exact tryBody_timestamp s inp
  · rw [handleCycleExc_state]
    exact tryBody_timestamp s inp

theorem runCycle_fetch (s : LoopState) (inp : CycleInput) :
    fetchTimestamps (runCycle s inp).2.1 = [s.timestamp] := by
  dsimp only [runCycle]
  split
  · simp only [fetchTimestamps_append, tryBody_fetch, fetchTimestamps_sleep,
      List.append_nil]
  · rw [handleCycleExc_fetch]
    exact tryBody_fetch s inp

theorem runLoop_cursor (inputs : List CycleInput) : ∀ s : LoopState,
    (runLoop s inputs).1.timestamp = s.timestamp ∧
    ∀ t ∈ fetchTimestamps (runLoop s inputs).2.1, t = s.timestamp := by
  induction inputs with
  | nil =>
    intro s
    exact ⟨rfl, by intro t ht; cases ht⟩
  | cons inp rest ih =>
    intro s
    dsimp only [runLoop]
    split
    · refine ⟨runCycle_timestamp s inp, ?_⟩
      intro t ht
      rw [runCycle_fetch] at ht
      cases ht with
      | head => rfl
      | tail _ h => cases h
    · constructor
      · rw [(ih (runCycle s inp).1).1, runCycle_timestamp]
      · intro t ht
        rw [fetchTimestamps_append] at ht
        rcases List.mem_append.mp ht with h | h
        · rw [runCycle_fetch] at h
          cases h with
          | head => rfl
          | tail _ h => cases h
        · have := (ih (runCycle s inp).1).2 t h
          rw [this, runCycle_timestamp]

/-- C8: each cycle issues its single fetch with the state's timestamp and
leaves the timestamp unchanged; consequently a loop started from the
initial state — whose cursor is set exactly once to the timestamp of 30
days before process start — passes that same `from_date` to every fetch of
every cycle, no matter what the environment does: the window is fixed, not
sliding. -/
theorem cursor_fixed_window :
    (∀ (s : LoopState) (inp : CycleInput),
       fetchTimestamps (runCycle s inp).2.1 = [s.timestamp]
       ∧ (runCycle s inp).1.timestamp = s.timestamp)
  ∧ (∀ (mktime : Int → Int) (today : Int) (inputs : List CycleInput),
       (runLoop (initState mktime today) inputs).1.timestamp =
         initialTimestamp mktime today
       ∧ ∀ t ∈ fetchTimestamps
             (runLoop (initState mktime today) inputs).2.1,
           t = initialTimestamp mktime today) :=
  ⟨fun s inp => ⟨runCycle_fetch s inp, runCycle_timestamp s inp⟩,
   fun mktime today inputs => runLoop_cursor inputs (initState mktime today)⟩

/-- Witness for C8: over two cycles with day-granularity `mktime`, the only
fetched timestamp is the 30-days-back one. -/
theorem cursor_fixed_window_witness :
    (86400 * (19000 - 30) : Int) ∈
      fetchTimestamps (runLoop (initState (fun d => 86400 * d) 19000)
        [okCycle "hw" "reviewing", okCycle "hw" "approved"]).2.1
  ∧ (86400 * (19000 - 30) : Int) = initialTimestamp (fun d => 86400 * d) 19000 :=
  ⟨by decide,
   (cursor_fixed_window.2 (fun d => 86400 * d) 19000
      [okCycle "hw" "reviewing", okCycle "hw" "approved"]).2
     (86400 * (19000 - 30)) (by decide)⟩
theorem lookup_status_record (status name : String) :
    List.lookup "status" [("status", PyVal.str status),
      ("homework_name", PyVal.str name)] = Option.some (PyVal.str status) := rfl

theorem lookup_name_record (status name : String) :
    List.lookup "homework_name" [("status", PyVal.str status),
      ("homework_name", PyVal.str name)] = Option.some (PyVal.str name) := rfl

theorem parse_status_record (status name verdict : String)
    (hv : HOMEWORK_VERDICTS.lookup status = Option.some verdict) :
    parse_status (PyVal.dict [("status", PyVal.str status),
      ("homework_name", PyVal.str name)]) =
      Except.ok (statusChangedMsg name verdict) := by
  simp [parse_status, lookup_status_record, lookup_name_record, hv, pyStr]

theorem tryBody_single (s : LoopState) (inp : CycleInput)
    (name status verdict : String)
    (hh : inp.http = .resp 200 (Option.some (respBody name status)))
    (hv : HOMEWORK_VERDICTS.lookup status = Option.some verdict) :
    tryBody s inp =
      if s.currentStatus = statusChangedMsg name verdict then
        (s, [.fetch s.timestamp, .logDebug "В ответе отсутствует новый статус"],
         .ok ())
      else
        ({ s with currentStatus := statusChangedMsg name verdict },
         [Event.fetch s.timestamp] ++
           (send_message inp.send1 (statusChangedMsg name verdict)).1,
         (send_message inp.send1 (statusChangedMsg name verdict)).2) := by
  obtain ⟨http, s1, s2⟩ := inp
  dsimp only at hh
  subst hh
  dsimp only [tryBody]
  rw [show (get_api_answer s.timestamp
      (.resp 200 (Option.some (respBody name status)))).2 =
      Except.ok (respBody name status) from rfl]
  dsimp only
  rw [show check_response (respBody name status) =
      Except.ok [PyVal.dict [("status", PyVal.str status),
        ("homework_name", PyVal.str name)]] from rfl]
  dsimp only
  rw [parse_status_record status name verdict hv]
  dsimp only
  by_cases hc : s.currentStatus = statusChangedMsg name verdict <;>
    simp [hc, get_api_answer_events]

theorem runCycle_single_ok (s : LoopState) (inp : CycleInput)
    (name status verdict : String)
    (hh : inp.http = .resp 200 (Option.some (respBody name status)))
    (hv : HOMEWORK_VERDICTS.lookup status = Option.some verdict)
    (hs1 : inp.send1 = Option.none) :
    runCycle s inp =
      if s.currentStatus = statusChangedMsg name verdict then
        (s, [.fetch s.timestamp, .logDebug "В ответе отсутствует новый статус",
             .sleep RETRY_PERIOD], false)
      else
        ({ s with currentStatus := statusChangedMsg name verdict },
         [.fetch s.timestamp, .sendAttempt (statusChangedMsg name verdict),
          .logDebug "Сообщение отправлено успешно", .sleep RETRY_PERIOD],
         false) := by
  dsimp only [runCycle]
  rw [tryBody_single s inp name status verdict hh hv]
  by_cases hc : s.currentStatus = statusChangedMsg name verdict
  · simp [hc]
  · simp [hc, hs1, send_message]

theorem sendMsgs_quiet_cycle (t : Int) :
    sendMsgs [Event.fetch t, Event.logDebug "В ответе отсутствует новый статус",
      Event.sleep RETRY_PERIOD] = [] := rfl

theorem sendMsgs_notify_cycle (t : Int) (m : String) :
    sendMsgs [Event.fetch t, Event.sendAttempt m,
      Event.logDebug "Сообщение отправлено успешно", Event.sleep RETRY_PERIOD] =
      [m] := rfl

/-- C1: starting from an empty Current Status, a first cycle whose response
carries one `reviewing` homework invokes the Notifier exactly once with the
`reviewing` verdict sentence, a second identical cycle invokes it zero
times, and a third cycle with `approved` invokes it exactly once with the
new sentence; in general, in a well-formed single-record cycle with a known
status and successful delivery, the Notifier is invoked iff the formatted
verdict differs from Current Status at the start of the cycle. -/
theorem poll_loop_notifies_only_on_change :
    (sendMsgs (runCycle ⟨"", 0⟩ (okCycle "hw" "reviewing")).2.1 =
       [statusChangedMsg "hw" "Работа взята на проверку ревьюером."]
     ∧ sendMsgs (runCycle (runCycle ⟨"", 0⟩ (okCycle "hw" "reviewing")).1
         (okCycle "hw" "reviewing")).2.1 = []
     ∧ sendMsgs (runCycle (runCycle (runCycle ⟨"", 0⟩
           (okCycle "hw" "reviewing")).1 (okCycle "hw" "reviewing")).1
         (okCycle "hw" "approved")).2.1 =
       [statusChangedMsg "hw" "Работа проверена: ревьюеру всё понравилось. Ура!"])
  ∧ (∀ (s : LoopState) (inp : CycleInput) (name status verdict : String),
       inp.http = .resp 200 (Option.some (respBody name status)) →
       HOMEWORK_VERDICTS.lookup status = Option.some verdict →
       inp.send1 = Option.none →
       sendMsgs (runCycle s inp).2.1 =
         (if s.currentStatus = statusChangedMsg name verdict then []
          else [statusChangedMsg name verdict])
       ∧ (sendMsgs (runCycle s inp).2.1 ≠ [] ↔
            s.currentStatus ≠ statusChangedMsg name verdict)) := by
  constructor
  · exact ⟨rfl, rfl, rfl⟩
  · intro s inp name status verdict hh hv hs1
    rw [runCycle_single_ok s inp name status verdict hh hv hs1]
    by_cases hc : s.currentStatus = statusChangedMsg name verdict <;>
      simp [hc, sendMsgs_quiet_cycle, sendMsgs_notify_cycle]

/-- Witness for C1: from empty status, the one `reviewing` cycle sends
exactly the formatted sentence. -/
theorem poll_loop_notifies_only_on_change_witness :
    (okCycle "hw" "reviewing").http =
      .resp 200 (Option.some (respBody "hw" "reviewing"))
  ∧ HOMEWORK_VERDICTS.lookup "reviewing" =
      Option.some "Работа взята на проверку ревьюером."
  ∧ sendMsgs (runCycle ⟨"", 3⟩ (okCycle "hw" "reviewing")).2.1 =
      [statusChangedMsg "hw" "Работа взята на проверку ревьюером."] :=
  ⟨rfl, rfl,
   ((poll_loop_notifies_only_on_change.2 ⟨"", 3⟩ (okCycle "hw" "reviewing")
       "hw" "reviewing" "Работа взята на проверку ревьюером."
       rfl rfl rfl).1).trans (if_neg (by decide))⟩

theorem runCycle_single_quiet (s : LoopState) (inp : CycleInput)
    (name status verdict : String)
    (hh : inp.http = .resp 200 (Option.some (respBody name status)))
    (hv : HOMEWORK_VERDICTS.lookup status = Option.some verdict)
    (hc : s.currentStatus = statusChangedMsg name verdict) :
    runCycle s inp =
      (s, [.fetch s.timestamp, .logDebug "В ответе отсутствует новый статус",
           .sleep RETRY_PERIOD], false) := by
  dsimp only [runCycle]
  rw [tryBody_single s inp name status verdict hh hv]
  simp [hc]

/-- C9: in a cycle whose verdict differs from Current Status, line 154
assigns `current_status = verdict` before line 155 sends; so when that
delivery fails the resulting state already holds the new verdict, the cycle
does not crash (the failure-notice send succeeds here), and a later cycle
observing the same status performs no notification attempt at all — the
verdict notification is lost permanently. -/
theorem status_update_precedes_notification :
    ∀ (s : LoopState) (name status verdict err : String) (inp2 : CycleInput),
      HOMEWORK_VERDICTS.lookup status = Option.some verdict →
      s.currentStatus ≠ statusChangedMsg name verdict →
      inp2.http = .resp 200 (Option.some (respBody name status)) →
      (runCycle s { http := .resp 200 (Option.some (respBody name status)),
                    send1 := Option.some err,
                    send2 := Option.none }).1.currentStatus =
          statusChangedMsg name verdict
      ∧ (runCycle s { http := .resp 200 (Option.some (respBody name status)),
                      send1 := Option.some err,
                      send2 := Option.none }).2.2 = false
      ∧ sendMsgs (runCycle
            (runCycle s { http := .resp 200 (Option.some (respBody name status)),
                          send1 := Option.some err,
                          send2 := Option.none }).1 inp2).2.1 = [] := by
  intro s name status verdict err inp2 hv hne hh2
  have hrc : runCycle s
      { http := .resp 200 (Option.some (respBody name status)),
        send1 := Option.some err, send2 := Option.none } =
      ({ s with currentStatus := statusChangedMsg name verdict },
       [Event.fetch s.timestamp,
        Event.sendAttempt (statusChangedMsg name verdict),
        Event.logError ("Ошибка при отправки сообщения: " ++ err),
        Event.logError ("Сбой в работе программы: " ++ notCallableMsg),
        Event.sendAttempt ("Сбой в работе программы: " ++ notCallableMsg),
        Event.logDebug "Сообщение отправлено успешно",
        Event.sleep RETRY_PERIOD], false) := by
    dsimp only [runCycle]
    rw [tryBody_single _ _ name status verdict rfl hv]
    simp [hne, send_message, handleCycleExc, exnStr]
  refine ⟨by rw [hrc], by rw [hrc], ?_⟩
  rw [hrc]
  rw [runCycle_single_quiet _ inp2 name status verdict hh2 hv rfl]
  exact sendMsgs_quiet_cycle s.timestamp

/-- Witness for C9: from empty status, a `reviewing` cycle with failed
delivery still records the new verdict, and the following identical cycle
sends nothing. -/
theorem status_update_precedes_notification_witness :
    ("" : String) ≠ statusChangedMsg "hw" "Работа взята на проверку ревьюером."
  ∧ (runCycle ⟨"", 0⟩
       { http := .resp 200 (Option.some (respBody "hw" "reviewing")),
         send1 := Option.some "boom",
         send2 := Option.none }).1.currentStatus =
      statusChangedMsg "hw" "Работа взята на проверку ревьюером."
  ∧ sendMsgs (runCycle
       (runCycle ⟨"", 0⟩
          { http := .resp 200 (Option.some (respBody "hw" "reviewing")),
            send1 := Option.some "boom",
            send2 := Option.none }).1 (okCycle "hw" "reviewing")).2.1 = [] :=
  ⟨by decide,
   (status_update_precedes_notification ⟨"", 0⟩ "hw" "reviewing"
      "Работа взята на проверку ревьюером." "boom" (okCycle "hw" "reviewing")
      rfl (by decide) rfl).1,
   (status_update_precedes_notification ⟨"", 0⟩ "hw" "reviewing"
      "Работа взята на проверку ревьюером." "boom" (okCycle "hw" "reviewing")
      rfl (by decide) rfl).2.2⟩

/-- C2 (code bug evidence): in a cycle whose delivery fails, the exception
leaving `send_message` is a `TypeError`, not a `TelegramError`, so the
`except TelegramError: pass` clause does not catch it; the generic handler
then makes a second `bot.send_message` attempt (the failure notice), and
when that also fails the exception escapes the loop and the process
terminates without reaching the sleep. -/
theorem delivery_failure_second_send_and_crash :
    sendMsgs (runCycle ⟨"", 0⟩
        { http := .resp 200 (Option.some (respBody "hw" "reviewing")),
          send1 := Option.some "network unreachable",
          send2 := Option.some "network unreachable" }).2.1 =
      [statusChangedMsg "hw" "Работа взята на проверку ревьюером.",
       "Сбой в работе программы: " ++ notCallableMsg]
  ∧ (runCycle ⟨"", 0⟩
        { http := .resp 200 (Option.some (respBody "hw" "reviewing")),
          send1 := Option.some "network unreachable",
          send2 := Option.some "network unreachable" }).2.2 = true
  ∧ raisesTelegramError (send_message (Option.some "network unreachable")
        (statusChangedMsg "hw" "Работа взята на проверку ревьюером.")).2 =
      false :=
  ⟨rfl, rfl, rfl⟩
